import Mathlib

/-!
Shallow embedding of the ArXiv paper store (problem2: `load_data.py`,
`query_papers.py`, `api_server.py`).

The DynamoDB table is modelled as a list of items; `put` is an upsert on the
`(PK, SK)` key pair.  DynamoDB orders items within a partition by the UTF-8
bytes of the sort key; since UTF-8 byte order coincides with codepoint order,
key comparison is embedded as lexicographic comparison of the strings'
character lists (`lexLeB`).  Query operations return the result object the
Python function builds, paired with the list of storage queries the function
issued (each `table.query(...)` call becomes one `StorageQuery` in the trace).
Wall-clock fields (`execution_time_ms`) are not modelled.  Python's
`str.lower` is embedded for the ASCII range, which covers every string the
loader produces.
-/

namespace ArxivDB

/-- Lexicographic (byte/codepoint) order on character lists, as DynamoDB
compares string sort keys. -/
def lexLeB : List Char → List Char → Bool
  | [], _ => true
  | _ :: _, [] => false
  | a :: as, b :: bs =>
    if a.toNat < b.toNat then true
    else if b.toNat < a.toNat then false
    else lexLeB as bs

/-- String comparison via `lexLeB` on the underlying character lists. -/
def strLeB (s t : String) : Bool := lexLeB s.data t.data

/-- Strict version of `strLeB`. -/
def strLtB (s t : String) : Bool := !(strLeB t s)

/-- ASCII lower-casing of one character (`str.lower` restricted to ASCII). -/
def lowerChar (c : Char) : Char :=
  if 65 ≤ c.toNat ∧ c.toNat ≤ 90 then Char.ofNat (c.toNat + 32) else c

/-- ASCII lower-casing of a string. -/
def lowerStr (s : String) : String := String.mk (s.data.map lowerChar)

/-- Lower-case ASCII letter test (the `[a-z]` class of the keyword regex). -/
def isAsciiLower (c : Char) : Bool := 97 ≤ c.toNat && c.toNat ≤ 122

/-- Word-character test (the regex `\w` class over ASCII), deciding where a
`\b` word boundary falls. -/
def isWordChar (c : Char) : Bool :=
  (97 ≤ c.toNat && c.toNat ≤ 122) || (65 ≤ c.toNat && c.toNat ≤ 90) ||
  (48 ≤ c.toNat && c.toNat ≤ 57) || c.toNat == 95

/-- A maximal `[a-z]` run is a match of `\b[a-z]{3,}\b` when it has length at
least 3 and neither neighbouring character is a word character. -/
def runOK (prev : Option Char) (run : List Char) (next : Option Char) : Bool :=
  3 ≤ run.length &&
  (match prev with
   | none => true
   | some p => !(isWordChar p)) &&
  (match next with
   | none => true
   | some c => !(isWordChar c))

/-- Left-to-right scan implementing `re.findall(r'\b[a-z]{3,}\b', text)`:
`prev` is the character just before the current `[a-z]` run `run`. -/
def scanAux : Option Char → List Char → List Char → List String
  | prev, run, [] => if runOK prev run none then [String.mk run] else []
  | prev, run, c :: cs =>
    if isAsciiLower c then scanAux prev (run ++ [c]) cs
    else
      (if runOK prev run (some c) then [String.mk run] else []) ++ scanAux (some c) [] cs

/-- The token list of a text: matches of `\b[a-z]{3,}\b`. -/
def findTokens (l : List Char) : List String := scanAux none [] l

/-- First-occurrence-ordered list of distinct elements, as the insertion
order of a Python `Counter`'s keys. -/
def dedupFirst (l : List String) : List String :=
  l.foldl (fun acc w => if w ∈ acc then acc else acc ++ [w]) []

/-- Descending-count comparison used by `Counter.most_common` (a stable sort
on counts, ties keeping insertion order). -/
def byCountDesc : (String × Nat) → (String × Nat) → Prop := fun a b => b.2 ≤ a.2

instance : DecidableRel byCountDesc := fun a b => inferInstanceAs (Decidable (b.2 ≤ a.2))

/-- `Counter(l).most_common(n)`: the distinct elements of `l` paired with
their multiplicities, stably sorted by descending count, truncated to `n`. -/
def most_common (l : List String) (n : Nat) : List (String × Nat) :=
  (((dedupFirst l).map (fun w => (w, l.count w))).insertionSort byCountDesc).take n

/-- Embedding of `extract_keywords`, with the stopword set as a parameter
(the spec treats the stopword list as a pluggable text-normalization input;
the source reads the module-level `STOPWORDS`). -/
def extract_keywords_with (stopwords : List String) (abstract : String) (top_n : Nat) :
    List String :=
  if abstract = "" then []
  else
    let words := findTokens (lowerStr abstract).data
    let filtered := words.filter (fun w => !(stopwords.contains w))
    (most_common filtered top_n).map Prod.fst

/-- The module-level `STOPWORDS` set of `load_data.py`. -/
def STOPWORDS : List String :=
  ["the", "a", "an", "and", "or", "but", "in", "on", "at", "to", "for",
   "of", "with", "by", "from", "up", "about", "into", "through", "during",
   "is", "are", "was", "were", "be", "been", "being", "have", "has", "had",
   "do", "does", "did", "will", "would", "could", "should", "may", "might",
   "can", "this", "that", "these", "those", "we", "our", "use", "using",
   "based", "approach", "method", "paper", "propose", "proposed", "show"]

/-- `extract_keywords` exactly as in the source: the parameterized extractor
applied to the module's stopword list. -/
def extract_keywords (abstract : String) (top_n : Nat) : List String :=
  extract_keywords_with STOPWORDS abstract top_n

/-- One input JSON record (`papers.json`): each field may be absent, matching
`paper.get(...)` with its default. -/
structure Paper where
  id : Option String := none
  title : Option String := none
  authors : Option (List String) := none
  summary : Option String := none
  categories : Option (List String) := none
  published : Option String := none
deriving DecidableEq

/-- One DynamoDB item as written by `create_dynamodb_items`: main-table key
pair, the GSI key attributes present on the item, and the denormalized
payload. -/
structure Item where
  PK : String
  SK : String
  GSI1PK : Option String := none
  GSI1SK : Option String := none
  GSI2PK : String
  GSI3PK : Option String := none
  GSI3SK : Option String := none
  arxiv_id : String
  title : String
  authors : List String
  abstract : String
  categories : List String
  published : String
  keywords : List String
deriving DecidableEq

/-- `categories if categories else ['uncategorized']` (Python truthiness:
`None` and `[]` are both falsy). -/
def normCategories (p : Paper) : List String :=
  let categories := p.categories.getD []
  if categories.isEmpty then ["uncategorized"] else categories

/-- `authors if authors else ['Unknown']`. -/
def normAuthors (p : Paper) : List String :=
  let authors := p.authors.getD []
  if authors.isEmpty then ["Unknown"] else authors

/-- The derived keyword list of a record: `extract_keywords(abstract, top_n=10)`. -/
def paperKeywords (p : Paper) : List String := extract_keywords (p.summary.getD "") 10

/-- Embedding of `create_dynamodb_items`: the fan-out of one logical record
into category, author, and keyword items, in emission order. -/
def create_dynamodb_items (paper : Paper) : List Item :=
  let arxiv_id := paper.id.getD "unknown"
  let title := paper.title.getD ""
  let authors := paper.authors.getD []
  let abstract := paper.summary.getD ""
  let categories := paper.categories.getD []
  let published := paper.published.getD ""
  let keywords := extract_keywords abstract 10
  (normCategories paper).map (fun category =>
    { PK := "CATEGORY#" ++ category
      SK := published ++ "#" ++ arxiv_id
      GSI2PK := "PAPER#" ++ arxiv_id
      arxiv_id, title, authors, abstract, categories, published, keywords })
  ++ (normAuthors paper).map (fun author =>
    { PK := "AUTHOR#" ++ author
      SK := published ++ "#" ++ arxiv_id
      GSI1PK := some ("AUTHOR#" ++ author)
      GSI1SK := some published
      GSI2PK := "PAPER#" ++ arxiv_id
      arxiv_id, title, authors, abstract, categories, published, keywords })
  ++ keywords.map (fun keyword =>
    { PK := "KEYWORD#" ++ keyword
      SK := published ++ "#" ++ arxiv_id
      GSI3PK := some ("KEYWORD#" ++ keyword)
      GSI3SK := some published
      GSI2PK := "PAPER#" ++ arxiv_id
      arxiv_id, title, authors, abstract, categories, published, keywords })

/-- The table: a list of items, unique up to the `(PK, SK)` key pair. -/
abbrev Store := List Item

/-- `put_item`: a DynamoDB put is an upsert replacing any item with the same
`(PK, SK)` key pair. -/
def putItem (store : Store) (item : Item) : Store :=
  store.filter (fun i => !(i.PK == item.PK && i.SK == item.SK)) ++ [item]

/-- `batch_write_items`: the batch writer issues one put per item. -/
def batch_write_items (store : Store) (items : List Item) : Store :=
  items.foldl putItem store

/-- One run of `main`'s load loop: collect every paper's fan-out into
`all_items`, then batch-write the whole list.  The write path performs no
reads and no deletes. -/
def load_papers_into (store : Store) (papers : List Paper) : Store :=
  batch_write_items store (papers.foldl (fun acc p => acc ++ create_dynamodb_items p) [])

/-- One `table.query(...)` request as issued to the storage engine. -/
structure StorageQuery where
  index : Option String
  partitionKey : String
  skBetween : Option (String × String)
  scanForward : Bool
  limit : Option Int
deriving DecidableEq

/-- The per-item result shape shared by the list-returning query functions. -/
structure PaperSummary where
  arxiv_id : String
  title : String
  authors : List String
  published : String
  categories : List String
deriving DecidableEq

/-- The per-item result shape of `get_paper_by_id` (adds abstract and
keywords). -/
structure PaperFull where
  arxiv_id : String
  title : String
  authors : List String
  published : String
  categories : List String
  abstract : String
  keywords : List String
deriving DecidableEq

/-- Projection of an item onto the summary result shape. -/
def summarize (i : Item) : PaperSummary :=
  { arxiv_id := i.arxiv_id, title := i.title, authors := i.authors,
    published := i.published, categories := i.categories }

/-- Descending main-table sort-key order (`ScanIndexForward=False`). -/
def descSK : Item → Item → Prop := fun a b => strLeB b.SK a.SK = true

instance : DecidableRel descSK := fun a b => inferInstanceAs (Decidable (strLeB b.SK a.SK = true))

/-- Ascending main-table sort-key order (the query default). -/
def ascSK : Item → Item → Prop := fun a b => strLeB a.SK b.SK = true

instance : DecidableRel ascSK := fun a b => inferInstanceAs (Decidable (strLeB a.SK b.SK = true))

/-- Ascending `AuthorIndex` sort-key order (`GSI1SK`). -/
def ascGSI1SK : Item → Item → Prop :=
  fun a b => strLeB (a.GSI1SK.getD "") (b.GSI1SK.getD "") = true

instance : DecidableRel ascGSI1SK :=
  fun a b => inferInstanceAs (Decidable (strLeB (a.GSI1SK.getD "") (b.GSI1SK.getD "") = true))

/-- Descending `KeywordIndex` sort-key order (`GSI3SK`). -/
def descGSI3SK : Item → Item → Prop :=
  fun a b => strLeB (b.GSI3SK.getD "") (a.GSI3SK.getD "") = true

instance : DecidableRel descGSI3SK :=
  fun a b => inferInstanceAs (Decidable (strLeB (b.GSI3SK.getD "") (a.GSI3SK.getD "") = true))

/-- Result dict of `query_recent_in_category` (`execution_time_ms` omitted). -/
structure RecentResult where
  query_type : String
  category : String
  limit : Int
  results : List PaperSummary
  count : Nat
deriving DecidableEq

/-- `query_recent_in_category`: one unconditional partition query on
`CATEGORY#<category>`, descending, limited — the function performs no
validation of `limit`. -/
def query_recent_in_category (store : Store) (category : String) (limit : Int) :
    RecentResult × List StorageQuery :=
  let items :=
    ((store.filter (fun i => i.PK == "CATEGORY#" ++ category)).insertionSort descSK).take
      limit.toNat
  ({ query_type := "recent_in_category", category := category, limit := limit,
     results := items.map summarize, count := items.length },
   [{ index := none, partitionKey := "CATEGORY#" ++ category, skBetween := none,
      scanForward := false, limit := some limit }])

/-- Result dict of `query_papers_by_author`. -/
structure AuthorResult where
  query_type : String
  author_name : String
  results : List PaperSummary
  count : Nat
deriving DecidableEq

/-- `query_papers_by_author`: an `AuthorIndex` query on `AUTHOR#<name>`; only
items carrying the `GSI1PK` attribute appear in that index. -/
def query_papers_by_author (store : Store) (author_name : String) :
    AuthorResult × List StorageQuery :=
  let items :=
    (store.filter (fun i => i.GSI1PK == some ("AUTHOR#" ++ author_name))).insertionSort
      ascGSI1SK
  ({ query_type := "papers_by_author", author_name := author_name,
     results := items.map summarize, count := items.length },
   [{ index := some "AuthorIndex", partitionKey := "AUTHOR#" ++ author_name,
      skBetween := none, scanForward := true, limit := none }])

/-- Result dict of `get_paper_by_id`. -/
structure GetResult where
  query_type : String
  arxiv_id : String
  results : List PaperFull
  count : Nat
deriving DecidableEq

/-- `get_paper_by_id`: a `PaperIdIndex` query (hash key only, `Limit=1`);
an empty item list yields `results = []`, `count = 0`, no error. -/
def get_paper_by_id (store : Store) (arxiv_id : String) : GetResult × List StorageQuery :=
  let gq : StorageQuery :=
    { index := some "PaperIdIndex", partitionKey := "PAPER#" ++ arxiv_id,
      skBetween := none, scanForward := true, limit := some 1 }
  let items := (store.filter (fun i => i.GSI2PK == "PAPER#" ++ arxiv_id)).take 1
  match items.head? with
  | some r =>
    ({ query_type := "get_paper_by_id", arxiv_id := arxiv_id,
       results := [{ arxiv_id := r.arxiv_id, title := r.title, authors := r.authors,
                     published := r.published, categories := r.categories,
                     abstract := r.abstract, keywords := r.keywords }],
       count := 1 }, [gq])
  | none =>
    ({ query_type := "get_paper_by_id", arxiv_id := arxiv_id, results := [], count := 0 },
     [gq])

/-- The items of the partition matched by the date-range key condition
`PK = CATEGORY#<category> AND SK BETWEEN <start>#  AND  <end>#zzzzzzz`
(DynamoDB `between` is inclusive at both bounds). -/
def dateRangeMatches (store : Store) (category start_date end_date : String) : List Item :=
  store.filter (fun i => i.PK == "CATEGORY#" ++ category
    && strLeB (start_date ++ "#") i.SK && strLeB i.SK (end_date ++ "#zzzzzzz"))

/-- Result dict of `query_papers_in_date_range`. -/
structure DateRangeResult where
  query_type : String
  category : String
  start_date : String
  end_date : String
  results : List PaperSummary
  count : Nat
deriving DecidableEq

/-- `query_papers_in_date_range`: one unconditional between-query, ascending,
no limit — the function performs no validation of the date strings. -/
def query_papers_in_date_range (store : Store) (category start_date end_date : String) :
    DateRangeResult × List StorageQuery :=
  let items := (dateRangeMatches store category start_date end_date).insertionSort ascSK
  ({ query_type := "papers_in_date_range", category := category,
     start_date := start_date, end_date := end_date,
     results := items.map summarize, count := items.length },
   [{ index := none, partitionKey := "CATEGORY#" ++ category,
      skBetween := some (start_date ++ "#", end_date ++ "#zzzzzzz"),
      scanForward := true, limit := none }])

/-- Result dict of `query_papers_by_keyword`. -/
structure KeywordResult where
  query_type : String
  keyword : String
  limit : Int
  results : List PaperSummary
  count : Nat
deriving DecidableEq

/-- `query_papers_by_keyword`: a `KeywordIndex` query on
`KEYWORD#<keyword.lower()>`, descending, limited. -/
def query_papers_by_keyword (store : Store) (keyword : String) (limit : Int) :
    KeywordResult × List StorageQuery :=
  let items :=
    ((store.filter (fun i => i.GSI3PK == some ("KEYWORD#" ++ lowerStr keyword))).insertionSort
      descGSI3SK).take limit.toNat
  ({ query_type := "papers_by_keyword", keyword := keyword, limit := limit,
     results := items.map summarize, count := items.length },
   [{ index := some "KeywordIndex", partitionKey := "KEYWORD#" ++ lowerStr keyword,
      skBetween := none, scanForward := false, limit := some limit }])

/-! ### Order lemmas for the key comparison -/

theorem charToNat_inj {a b : Char} (h : a.toNat = b.toNat) : a = b := by
  have ha := Char.ofNat_toNat a
  have hb := Char.ofNat_toNat b
  rw [← ha, ← hb, h]

theorem lexLeB_refl (l : List Char) : lexLeB l l = true := by
  induction l with
  | nil => rfl
  | cons a as ih => simp [lexLeB, ih]

theorem lexLeB_total (a b : List Char) : lexLeB a b = true ∨ lexLeB b a = true := by
  induction a generalizing b with
  | nil => left; rfl
  | cons x xs ih =>
    cases b with
    | nil => right; rfl
    | cons y ys =>
      by_cases h1 : x.toNat < y.toNat
      · left; simp [lexLeB, h1]
      · by_cases h2 : y.toNat < x.toNat
        · right; simp [lexLeB, h2]
        · rcases ih ys with h | h
          · left; simp [lexLeB, h1, h2, h]
          · right; simp [lexLeB, h1, h2, h]

theorem lexLeB_trans {a b c : List Char} (hab : lexLeB a b = true)
    (hbc : lexLeB b c = true) : lexLeB a c = true := by
  induction a generalizing b c with
  | nil => rfl
  | cons x xs ih =>
    cases b with
    | nil => simp [lexLeB] at hab
    | cons y ys =>
      cases c with
      | nil => simp [lexLeB] at hbc
      | cons z zs =>
        simp only [lexLeB] at hab hbc ⊢
        split_ifs at hab hbc ⊢ <;> first
          | rfl
          | omega
          | exact ih hab hbc

theorem lexLeB_antisymm {a b : List Char} (hab : lexLeB a b = true)
    (hba : lexLeB b a = true) : a = b := by
  induction a generalizing b with
  | nil =>
    cases b with
    | nil => rfl
    | cons y ys => simp [lexLeB] at hba
  | cons x xs ih =>
    cases b with
    | nil => simp [lexLeB] at hab
    | cons y ys =>
      simp only [lexLeB] at hab hba
      split_ifs at hab hba <;> first
        | omega
        | exact congrArg₂ List.cons (charToNat_inj (by omega)) (ih hab hba)

theorem lexLeB_append_left (p x y : List Char) :
    lexLeB (p ++ x) (p ++ y) = lexLeB x y := by
  induction p with
  | nil => rfl
  | cons a as ih => simp [lexLeB, ih]

theorem lexLeB_append_of_length_eq {x y : List Char} (u v : List Char)
    (hlen : x.length = y.length) (h : lexLeB (x ++ u) (y ++ v) = true) :
    lexLeB x y = true := by
  induction x generalizing y with
  | nil =>
    rfl
  | cons a as ih =>
    cases y with
    | nil => simp at hlen
    | cons b bs =>
      simp only [List.cons_append, lexLeB] at h ⊢
      split_ifs at h ⊢ <;> first
        | rfl
        | omega
        | exact ih (by simpa using hlen) h

theorem strLeB_refl (s : String) : strLeB s s = true := lexLeB_refl s.data

theorem strLeB_total (s t : String) : strLeB s t = true ∨ strLeB t s = true :=
  lexLeB_total s.data t.data

theorem strLeB_trans {s t u : String} (h1 : strLeB s t = true) (h2 : strLeB t u = true) :
    strLeB s u = true := lexLeB_trans h1 h2

theorem strLeB_antisymm {s t : String} (h1 : strLeB s t = true) (h2 : strLeB t s = true) :
    s = t := by
  cases s; cases t
  exact congrArg String.mk (lexLeB_antisymm h1 h2)

theorem strLtB_of_leB_of_ne {s t : String} (hle : strLeB s t = true) (hne : s ≠ t) :
    strLtB s t = true := by
  unfold strLtB
  cases hts : strLeB t s with
  | false => rfl
  | true => exact absurd (strLeB_antisymm hle hts) hne

/-! ### Helper lemmas on the extractor -/

theorem dedupFirst_nodup (l : List String) : (dedupFirst l).Nodup := by
  unfold dedupFirst
  suffices h : ∀ acc : List String, acc.Nodup →
      (l.foldl (fun acc w => if w ∈ acc then acc else acc ++ [w]) acc).Nodup from
    h [] List.nodup_nil
  induction l with
  | nil => intro acc hacc; exact hacc
  | cons w ws ih =>
    intro acc hacc
    simp only [List.foldl_cons]
    by_cases hw : w ∈ acc
    · rw [if_pos hw]; exact ih acc hacc
    · rw [if_neg hw]
      refine ih _ ?_
      simp [List.nodup_append, hacc, hw]

theorem most_common_fst_nodup (l : List String) (n : Nat) :
    ((most_common l n).map Prod.fst).Nodup := by
  unfold most_common
  have hnd : (((dedupFirst l).map (fun w => (w, l.count w))).map Prod.fst).Nodup := by
    simpa [List.map_map, Function.comp_def] using dedupFirst_nodup l
  have hperm :=
    (List.perm_insertionSort byCountDesc ((dedupFirst l).map (fun w => (w, l.count w)))).map
      Prod.fst
  have hnd2 := hperm.nodup_iff.mpr hnd
  have hsub : List.Sublist
      ((List.take n (List.insertionSort byCountDesc
        ((dedupFirst l).map (fun w => (w, l.count w))))).map Prod.fst)
      ((List.insertionSort byCountDesc
        ((dedupFirst l).map (fun w => (w, l.count w)))).map Prod.fst) :=
    (List.take_sublist n _).map Prod.fst
  exact hsub.nodup hnd2

theorem extract_keywords_with_nodup (sw : List String) (a : String) (n : Nat) :
    (extract_keywords_with sw a n).Nodup := by
  unfold extract_keywords_with
  split
  · exact List.nodup_nil
  · exact most_common_fst_nodup _ _

/-! ### Concrete records and stores used in the claim checks -/

/-- A record with one category `a`. -/
def paperV1 : Paper :=
  { id := some "p1", title := some "T", authors := some ["Ann"],
    summary := some "", categories := some ["a"],
    published := some "2020-01-01T00:00:00Z" }

/-- The same identifier re-published with category `b` instead of `a`. -/
def paperV2 : Paper := { paperV1 with categories := some ["b"] }

/-- A record whose authors list repeats the same name. -/
def dupAuthorPaper : Paper :=
  { id := some "p", title := some "", authors := some ["A", "A"],
    summary := some "", categories := some ["c"], published := some "2020" }

/-- A record with an empty authors list and no categories field. -/
def noAuthorPaper : Paper :=
  { id := some "p9", title := some "T", authors := some [],
    summary := some "", categories := none, published := some "2021" }

/-- The category entry `create_dynamodb_items` emits for `paperV1`. -/
def itemW : Item :=
  { PK := "CATEGORY#a", SK := "2020-01-01T00:00:00Z#p1",
    GSI2PK := "PAPER#p1", arxiv_id := "p1", title := "T", authors := ["Ann"],
    abstract := "", categories := ["a"],
    published := "2020-01-01T00:00:00Z", keywords := [] }

/-! ### Claim theorems -/

/-- C1: the write path of `load_data.py` only ever puts items; re-ingesting
identifier `p1` with its category changed from `a` to `b` leaves the old
`CATEGORY#a` entry physically in the table (alongside the new `CATEGORY#b`
entry), contradicting the required invariant that no entry remain under a
category no longer present. -/
theorem reingest_leaves_stale_category_entry :
    (((load_papers_into (load_papers_into [] [paperV1]) [paperV2]).filter
        (fun i => i.PK == "CATEGORY#a")).length = 1) ∧
    (((load_papers_into (load_papers_into [] [paperV1]) [paperV2]).filter
        (fun i => i.PK == "CATEGORY#b")).length = 1) := by decide

/-- C2 counterexample: a record with `k = 1` distinct category, `m = 1`
distinct author (listed twice) and `n = 0` keywords is projected to 3 entries,
not `k+m+n = 2`, and the two author entries share the same `(PK, SK)` key —
no within-family deduplication happens. -/
theorem duplicate_author_not_deduplicated :
    ((create_dynamodb_items dupAuthorPaper).length = 3) ∧
    (((create_dynamodb_items dupAuthorPaper).map (fun i => (i.PK, i.SK))).count
        ("AUTHOR#A", "2020#p") = 2) := by decide

/-- C2 (amended): the projector emits one entry per element of the normalized
category list, one per element of the normalized author list, and one per
extracted keyword — `k+m+n` only when those lists are duplicate-free; the
keyword family alone is duplicate-free by construction. -/
theorem projected_entry_count (p : Paper) :
    ((create_dynamodb_items p).length =
      (normCategories p).length + (normAuthors p).length + (paperKeywords p).length) ∧
    (paperKeywords p).Nodup := by
  constructor
  · simp [create_dynamodb_items, paperKeywords]
    omega
  · exact extract_keywords_with_nodup _ _ _

/-- C4 counterexample: called with a non-positive limit, and with malformed
date strings, the query functions still issue their storage query (the trace
is non-empty) and hand the caller an ordinary result object, not a bad-request
condition — no validation precedes the storage call. -/
theorem no_validation_counterexample :
    ((query_recent_in_category [] "cs.LG" 0).2 ≠ []) ∧
    ((query_papers_in_date_range [] "cs.LG" "not-a-date" "13-45").2 ≠ []) ∧
    ((query_recent_in_category [] "cs.LG" 0).1.query_type = "recent_in_category") ∧
    ((query_papers_in_date_range [] "cs.LG" "not-a-date" "13-45").1.query_type =
      "papers_in_date_range") := by decide

/-- C4 (amended): the query operations perform no validation at all — for
every store, every limit (of any sign) and every date strings, each function
issues exactly one storage query and returns a result object. -/
theorem queries_always_issue_storage_call (store : Store) (category s e kw : String)
    (limit : Int) :
    ((query_recent_in_category store category limit).2.length = 1) ∧
    ((query_papers_in_date_range store category s e).2.length = 1) ∧
    ((query_papers_by_keyword store kw limit).2.length = 1) :=
  ⟨rfl, rfl, rfl⟩

/-- C5: on the abstract `"the model uses a model for models"` with `top_n = 2`
and the stopword set `{the, a, for, uses}`, extraction returns exactly
`["model", "models"]` — `model` first by frequency 2, then `models`. -/
theorem keyword_extraction_example :
    extract_keywords_with ["the", "a", "for", "uses"]
      "the model uses a model for models" 2 = ["model", "models"] := by decide

/-- C6: `get_paper_by_id` on an identifier absent from the store returns the
well-formed result object with an empty result list and count 0; no error
path exists. -/
theorem get_absent_id_empty (store : Store) (arxiv_id : String)
    (habsent : ∀ i ∈ store, i.GSI2PK ≠ "PAPER#" ++ arxiv_id) :
    (get_paper_by_id store arxiv_id).1 =
      { query_type := "get_paper_by_id", arxiv_id := arxiv_id,
        results := [], count := 0 } := by
  unfold get_paper_by_id
  have hfil : store.filter (fun i => i.GSI2PK == "PAPER#" ++ arxiv_id) = [] := by
    rw [List.filter_eq_nil_iff]
    intro i hi
    simpa using habsent i hi
  rw [hfil]
  rfl

theorem get_absent_id_empty_witness :
    (get_paper_by_id [] "9999.0001").1 =
      { query_type := "get_paper_by_id", arxiv_id := "9999.0001",
        results := [], count := 0 } :=
  get_absent_id_empty [] "9999.0001" (by simp)

/-- C9 counterexample: for a record with an empty authors list the single
author-family entry is keyed `AUTHOR#Unknown` (capitalized), not the claimed
`AUTHOR#unknown` — an author lookup for `unknown` would miss it. -/
theorem sentinel_author_is_capitalized :
    (((create_dynamodb_items noAuthorPaper).map (fun i => i.PK)).count "AUTHOR#unknown" = 0) ∧
    (((create_dynamodb_items noAuthorPaper).map (fun i => i.PK)).count "AUTHOR#Unknown" = 1) ∧
    (((create_dynamodb_items noAuthorPaper).map (fun i => i.PK)).count
        "CATEGORY#uncategorized" = 1) := by decide

/-- String prefix test on the character lists, used to classify an item's
index family from its partition key. -/
def strHasPrefix (p s : String) : Bool := p.data.isPrefixOf s.data

theorem keyword_item_not_author_family (kw : String) :
    strHasPrefix "AUTHOR#" ("KEYWORD#" ++ kw) = false := by
  unfold strHasPrefix
  rw [String.data_append]
  rfl

theorem keyword_item_not_category_family (kw : String) :
    strHasPrefix "CATEGORY#" ("KEYWORD#" ++ kw) = false := by
  unfold strHasPrefix
  rw [String.data_append]
  rfl

/-- C9 (amended): with empty-or-missing authors and categories the fan-out
contains exactly one author-family entry and exactly one category-family
entry, keyed `AUTHOR#Unknown` (capital `U`, as the source writes it) and
`CATEGORY#uncategorized`. -/
theorem sentinel_entries (p : Paper) (hA : p.authors.getD [] = [])
    (hC : p.categories.getD [] = []) :
    (((create_dynamodb_items p).filter (fun i => strHasPrefix "AUTHOR#" i.PK)).map
        (fun i => i.PK) = ["AUTHOR#Unknown"]) ∧
    (((create_dynamodb_items p).filter (fun i => strHasPrefix "CATEGORY#" i.PK)).map
        (fun i => i.PK) = ["CATEGORY#uncategorized"]) := by
  have hcat : normCategories p = ["uncategorized"] := by simp [normCategories, hC]
  have hauth : normAuthors p = ["Unknown"] := by simp [normAuthors, hA]
  unfold create_dynamodb_items
  rw [hcat, hauth]
  simp [List.filter_append, List.filter_map, Function.comp_def,
    keyword_item_not_author_family, keyword_item_not_category_family,
    show strHasPrefix "AUTHOR#" "CATEGORY#uncategorized" = false from rfl,
    show strHasPrefix "AUTHOR#" "AUTHOR#Unknown" = true from rfl,
    show strHasPrefix "CATEGORY#" "CATEGORY#uncategorized" = true from rfl,
    show strHasPrefix "CATEGORY#" "AUTHOR#Unknown" = false from rfl]

theorem sentinel_entries_witness :
    (noAuthorPaper.authors.getD [] = []) ∧
    (noAuthorPaper.categories.getD [] = []) ∧
    (((create_dynamodb_items noAuthorPaper).filter
        (fun i => strHasPrefix "AUTHOR#" i.PK)).map (fun i => i.PK) = ["AUTHOR#Unknown"]) ∧
    (((create_dynamodb_items noAuthorPaper).filter
        (fun i => strHasPrefix "CATEGORY#" i.PK)).map (fun i => i.PK) =
      ["CATEGORY#uncategorized"]) :=
  ⟨rfl, rfl,
    (sentinel_entries noAuthorPaper rfl rfl).1,
    (sentinel_entries noAuthorPaper rfl rfl).2⟩

/-- C10: every entry of the fan-out carries the identical denormalized
payload, equal to the input record's (possibly empty) field values; sentinel
partition keys do not alter the payload. -/
theorem payload_identical (p : Paper) :
    ∀ item ∈ create_dynamodb_items p,
      item.arxiv_id = p.id.getD "unknown" ∧
      item.title = p.title.getD "" ∧
      item.authors = p.authors.getD [] ∧
      item.abstract = p.summary.getD "" ∧
      item.categories = p.categories.getD [] ∧
      item.published = p.published.getD "" ∧
      item.keywords = paperKeywords p := by
  intro item hmem
  unfold create_dynamodb_items at hmem
  simp only [List.mem_append, List.mem_map] at hmem
  rcases hmem with (⟨c, _, rfl⟩ | ⟨a, _, rfl⟩) | ⟨k, _, rfl⟩ <;>
    simp [paperKeywords]

theorem payload_identical_witness :
    itemW.arxiv_id = paperV1.id.getD "unknown" ∧
    itemW.title = paperV1.title.getD "" ∧
    itemW.authors = paperV1.authors.getD [] ∧
    itemW.abstract = paperV1.summary.getD "" ∧
    itemW.categories = paperV1.categories.getD [] ∧
    itemW.published = paperV1.published.getD "" ∧
    itemW.keywords = paperKeywords paperV1 :=
  payload_identical paperV1 itemW (by decide)

/-! ### Case-folding and date-range key lemmas -/

theorem toNat_ofNat_small {n : Nat} (h1 : 97 ≤ n) (h2 : n ≤ 122) :
    (Char.ofNat n).toNat = n := by
  interval_cases n <;> decide

theorem lowerChar_idem (c : Char) : lowerChar (lowerChar c) = lowerChar c := by
  unfold lowerChar
  by_cases h : 65 ≤ c.toNat ∧ c.toNat ≤ 90
  · rw [if_pos h]
    have ht : (Char.ofNat (c.toNat + 32)).toNat = c.toNat + 32 :=
      toNat_ofNat_small (by omega) (by omega)
    rw [if_neg (by rw [ht]; omega)]
  · rw [if_neg h, if_neg h]

theorem lowerStr_idem (s : String) : lowerStr (lowerStr s) = lowerStr s := by
  unfold lowerStr
  simp [List.map_map, Function.comp_def, lowerChar_idem]

theorem strLeB_append_same (p x y : String) :
    strLeB (p ++ x) (p ++ y) = strLeB x y := by
  unfold strLeB
  rw [String.data_append, String.data_append, lexLeB_append_left]

theorem lexLeB_2002_false (u v : List Char) :
    lexLeB ("2020-02".data ++ u) ("2020-01".data ++ v) = false := rfl

/-- A store of one keyword-family entry, used as the case-fold witness. -/
def kwItem1 : Item :=
  { PK := "KEYWORD#model", SK := "2020#p1", GSI3PK := some "KEYWORD#model",
    GSI3SK := some "2020", GSI2PK := "PAPER#p1", arxiv_id := "p1", title := "T",
    authors := ["Ann"], abstract := "model", categories := ["a"],
    published := "2020", keywords := ["model"] }

/-- The store holding just `kwItem1`. -/
def kwStore : Store := [kwItem1]

/-- C7: the by-keyword operation case-folds its argument before the lookup,
so any two keyword spellings with the same lower-casing (e.g. `MODEL` and
`model`) produce identical result sets over every store. -/
theorem keyword_query_casefold (store : Store) (k1 k2 : String) (limit : Int)
    (h : lowerStr k1 = lowerStr k2) :
    (query_papers_by_keyword store k1 limit).1.results =
      (query_papers_by_keyword store k2 limit).1.results := by
  unfold query_papers_by_keyword
  rw [h]

theorem keyword_query_casefold_witness :
    (lowerStr "MODEL" = lowerStr "model") ∧
    ((query_papers_by_keyword kwStore "MODEL" 20).1.results =
      (query_papers_by_keyword kwStore "model" 20).1.results) :=
  ⟨by decide, keyword_query_casefold kwStore "MODEL" "model" 20 (by decide)⟩

/-- An entry of category `cat` published on the end date of the queried
range, with a time-of-day component in its timestamp. -/
def endDayItem : Item :=
  { PK := "CATEGORY#cat", SK := "2020-01-31T12:00:00Z#x",
    GSI2PK := "PAPER#x", arxiv_id := "x", title := "T", authors := ["A"],
    abstract := "", categories := ["cat"],
    published := "2020-01-31T12:00:00Z", keywords := [] }

/-- C3 counterexample: a stored entry of the queried category whose
publication timestamp falls on the end date `2020-01-31` (at 12:00) is NOT
returned by `by-date-range(cat, 2020-01-01, 2020-01-31)`: its sort key
`2020-01-31T12:00:00Z#x` sorts after the upper bound `2020-01-31#zzzzzzz`
because `T` exceeds `#`. -/
theorem daterange_misses_end_date_timestamp :
    ((query_papers_in_date_range [endDayItem] "cat" "2020-01-01" "2020-01-31").1.count = 0) ∧
    ((query_papers_in_date_range [endDayItem] "cat" "2020-01-01" "2020-01-31").1.results = []) ∧
    (endDayItem.PK = "CATEGORY#cat") ∧
    (endDayItem.published = "2020-01-31T12:00:00Z") := by decide

/-- C3 (amended): with date-only timestamps the range is inclusive at both
ends — an entry published exactly `2020-01-31` is returned provided its
identifier suffix sorts no later than the `zzzzzzz` sentinel — and no entry
whose timestamp begins with `2020-02-01` is ever matched; entries extending
the end date with a time component (see the counterexample) fall outside the
bound. -/
theorem daterange_endpoint_behaviour (store : Store) (cat : String) :
    (∀ item ∈ store, item.PK = "CATEGORY#" ++ cat →
      ∀ id, item.SK = "2020-01-31#" ++ id → strLeB id "zzzzzzz" = true →
        summarize item ∈
          (query_papers_in_date_range store cat "2020-01-01" "2020-01-31").1.results) ∧
    (∀ item ∈ store, ∀ r, ∀ id : String, item.published.data = "2020-02-01".data ++ r →
      item.SK = item.published ++ "#" ++ id →
        item ∉ dateRangeMatches store cat "2020-01-01" "2020-01-31") := by
  constructor
  · intro item hmem hPK id hsk hid
    have hpred : item ∈ dateRangeMatches store cat "2020-01-01" "2020-01-31" := by
      refine List.mem_filter.mpr ⟨hmem, ?_⟩
      have h1 : (item.PK == "CATEGORY#" ++ cat) = true := by simp [hPK]
      have h2 : strLeB ("2020-01-01" ++ "#") item.SK = true := by
        rw [hsk]
        unfold strLeB
        rw [String.data_append, String.data_append]
        rfl
      have h3 : strLeB item.SK ("2020-01-31" ++ "#zzzzzzz") = true := by
        rw [hsk, show ("2020-01-31" ++ "#zzzzzzz" : String) = "2020-01-31#" ++ "zzzzzzz" from rfl,
          strLeB_append_same]
        exact hid
      rw [h1, h2, h3]
      rfl
    unfold query_papers_in_date_range
    exact List.mem_map_of_mem summarize ((List.mem_insertionSort ascSK).mpr hpred)
  · intro item hmem r id hpub hsk hq
    have hdata : item.SK.data =
        "2020-02".data ++ ("-01".data ++ (r ++ ("#".data ++ id.data))) := by
      rw [hsk, String.data_append, String.data_append, hpub,
        show ("2020-02-01" : String).data = "2020-02".data ++ "-01".data from rfl]
      simp [List.append_assoc]
    have hfalse : strLeB item.SK "2020-01-31#zzzzzzz" = false := by
      unfold strLeB
      rw [hdata,
        show ("2020-01-31#zzzzzzz" : String).data = "2020-01".data ++ "-31#zzzzzzz".data
          from rfl]
      exact lexLeB_2002_false _ _
    rw [dateRangeMatches, List.mem_filter] at hq
    simp [hfalse] at hq

/-- A date-only entry published on the end date, inside the bound. -/
def inJanItem : Item :=
  { PK := "CATEGORY#cs", SK := "2020-01-31#abc",
    GSI2PK := "PAPER#abc", arxiv_id := "abc", title := "T", authors := ["A"],
    abstract := "", categories := ["cs"], published := "2020-01-31",
    keywords := [] }

/-- A date-only entry published the day after the end date. -/
def febItem : Item :=
  { PK := "CATEGORY#cs", SK := "2020-02-01#q",
    GSI2PK := "PAPER#q", arxiv_id := "q", title := "T", authors := ["A"],
    abstract := "", categories := ["cs"], published := "2020-02-01",
    keywords := [] }

theorem daterange_endpoint_behaviour_witness :
    (summarize inJanItem ∈
      (query_papers_in_date_range [inJanItem, febItem] "cs"
        "2020-01-01" "2020-01-31").1.results) ∧
    (febItem ∉ dateRangeMatches [inJanItem, febItem] "cs" "2020-01-01" "2020-01-31") :=
  ⟨(daterange_endpoint_behaviour [inJanItem, febItem] "cs").1 inJanItem (by decide)
      (by decide) "abc" (by decide) (by decide),
   (daterange_endpoint_behaviour [inJanItem, febItem] "cs").2 febItem (by decide)
      [] "q" (by decide) (by decide)⟩

/-! ### Ordering facts for recent-by-category -/

instance : IsTotal Item descSK :=
  ⟨fun a b => by
    unfold descSK
    rcases strLeB_total b.SK a.SK with h | h
    · exact Or.inl h
    · exact Or.inr h⟩

instance : IsTrans Item descSK :=
  ⟨fun _ _ _ hab hbc => strLeB_trans hbc hab⟩

theorem take_sorted_mem_store {store : Store} {category : String} {n : Nat} {x : Item}
    (hx : x ∈ ((store.filter (fun i => i.PK == "CATEGORY#" ++ category)).insertionSort
      descSK).take n) :
    x ∈ store ∧ x.PK = "CATEGORY#" ++ category := by
  have h1 := List.mem_of_mem_take hx
  have h2 := (List.mem_insertionSort descSK).mp h1
  exact ⟨List.mem_of_mem_filter h2, by simpa using List.of_mem_filter h2⟩

theorem take_sorted_desc_strict (store : Store) (category : String) (n : Nat)
    (hkeys : store.Pairwise (fun a b => a.PK ≠ b.PK ∨ a.SK ≠ b.SK)) :
    (((store.filter (fun i => i.PK == "CATEGORY#" ++ category)).insertionSort
        descSK).take n).Pairwise
      (fun a b => strLeB b.SK a.SK = true ∧ a.SK ≠ b.SK) := by
  have hsorted : (((store.filter (fun i => i.PK == "CATEGORY#" ++ category)).insertionSort
      descSK).take n).Pairwise descSK :=
    (List.sorted_insertionSort descSK _).sublist (List.take_sublist _ _)
  have hne0 : ((store.filter (fun i => i.PK == "CATEGORY#" ++ category)).insertionSort
      descSK).Pairwise (fun a b => a.PK ≠ b.PK ∨ a.SK ≠ b.SK) := by
    have hsymm : Symmetric (fun a b : Item => a.PK ≠ b.PK ∨ a.SK ≠ b.SK) := by
      intro a b h
      rcases h with h | h
      · exact Or.inl h.symm
      · exact Or.inr h.symm
    exact (List.Perm.pairwise_iff (fun {x y} h => hsymm h)
      (List.perm_insertionSort descSK _)).mpr
      (hkeys.sublist (List.filter_sublist _))
  have hne : (((store.filter (fun i => i.PK == "CATEGORY#" ++ category)).insertionSort
      descSK).take n).Pairwise (fun a b => a.PK ≠ b.PK ∨ a.SK ≠ b.SK) :=
    hne0.sublist (List.take_sublist _ _)
  have hand := hsorted.and hne
  refine hand.imp_of_mem ?_
  intro a b ha hb hr
  rcases hr with ⟨hle, hpkne | hskne⟩
  · exact absurd ((take_sorted_mem_store ha).2.trans (take_sorted_mem_store hb).2.symm) hpkne
  · exact ⟨hle, hskne⟩

/-- C8 counterexample: two stored entries of category `c` share publication
timestamp `2020-01-01`; `recent-by-category` returns both, so the returned
sequence is not strictly descending by publication recency. -/
theorem recent_not_strict_by_published :
    ((query_recent_in_category
        [{ PK := "CATEGORY#c", SK := "2020-01-01#a", GSI2PK := "PAPER#a",
           arxiv_id := "a", title := "", authors := [], abstract := "",
           categories := ["c"], published := "2020-01-01", keywords := [] },
         { PK := "CATEGORY#c", SK := "2020-01-01#b", GSI2PK := "PAPER#b",
           arxiv_id := "b", title := "", authors := [], abstract := "",
           categories := ["c"], published := "2020-01-01", keywords := [] }]
        "c" 5).1.results.map (fun s => s.published)) =
      ["2020-01-01", "2020-01-01"] := by decide

/-- C8 (amended): `recent-by-category` with positive limit `L` returns at
most `L` entries, strictly descending by the full sort key
`published#identifier`; by publication timestamp alone the sequence is
non-increasing (entries may tie), provided the store's timestamps share one
fixed length (as ISO-8601 timestamps do) and its `(PK, SK)` keys are unique
with sort keys of the ingested `published#identifier` shape. -/
theorem recent_in_category_ordering (store : Store) (category : String) (limit : Int)
    (_hpos : 0 < limit)
    (hkeys : store.Pairwise (fun a b => a.PK ≠ b.PK ∨ a.SK ≠ b.SK))
    (hsk : ∀ i ∈ store, i.SK = i.published ++ "#" ++ i.arxiv_id)
    (hlen : ∀ i ∈ store, ∀ j ∈ store, i.published.length = j.published.length) :
    ((query_recent_in_category store category limit).1.results.length ≤ limit.toNat) ∧
    ((query_recent_in_category store category limit).1.results.Pairwise
      (fun a b => strLtB (b.published ++ "#" ++ b.arxiv_id)
        (a.published ++ "#" ++ a.arxiv_id) = true)) ∧
    ((query_recent_in_category store category limit).1.results.Pairwise
      (fun a b => strLeB b.published a.published = true)) := by
  unfold query_recent_in_category
  dsimp only
  have hstrict := take_sorted_desc_strict store category limit.toNat hkeys
  refine ⟨?_, ?_, ?_⟩
  · simp [List.length_take]
  · rw [List.pairwise_map]
    refine hstrict.imp_of_mem ?_
    intro a b ha hb hr
    show strLtB (b.published ++ "#" ++ b.arxiv_id) (a.published ++ "#" ++ a.arxiv_id) = true
    have hska := hsk a (take_sorted_mem_store ha).1
    have hskb := hsk b (take_sorted_mem_store hb).1
    rw [← hska, ← hskb]
    exact strLtB_of_leB_of_ne hr.1 (Ne.symm hr.2)
  · rw [List.pairwise_map]
    refine hstrict.imp_of_mem ?_
    intro a b ha hb hr
    show strLeB b.published a.published = true
    have hska := hsk a (take_sorted_mem_store ha).1
    have hskb := hsk b (take_sorted_mem_store hb).1
    have hlab : b.published.data.length = a.published.data.length :=
      hlen b (take_sorted_mem_store hb).1 a (take_sorted_mem_store ha).1
    have hle : strLeB b.SK a.SK = true := hr.1
    rw [hska, hskb] at hle
    unfold strLeB at hle ⊢
    rw [String.data_append, String.data_append, String.data_append, String.data_append,
      List.append_assoc, List.append_assoc] at hle
    exact lexLeB_append_of_length_eq _ _ hlab hle

/-- A two-entry single-category store with distinct dates, for the ordering
witness. -/
def recentStore : Store :=
  [{ PK := "CATEGORY#c", SK := "2020-01-01#a", GSI2PK := "PAPER#a",
     arxiv_id := "a", title := "", authors := [], abstract := "",
     categories := ["c"], published := "2020-01-01", keywords := [] },
   { PK := "CATEGORY#c", SK := "2020-01-02#b", GSI2PK := "PAPER#b",
     arxiv_id := "b", title := "", authors := [], abstract := "",
     categories := ["c"], published := "2020-01-02", keywords := [] }]

theorem recent_in_category_ordering_witness :
    ((0 : Int) < 2) ∧
    ((query_recent_in_category recentStore "c" 2).1.results.length ≤ (2 : Int).toNat) ∧
    ((query_recent_in_category recentStore "c" 2).1.results.Pairwise
      (fun a b => strLtB (b.published ++ "#" ++ b.arxiv_id)
        (a.published ++ "#" ++ a.arxiv_id) = true)) ∧
    ((query_recent_in_category recentStore "c" 2).1.results.Pairwise
      (fun a b => strLeB b.published a.published = true)) := by
  have h := recent_in_category_ordering recentStore "c" 2 (by decide)
    (by decide) (by decide) (by decide)
  exact ⟨by decide, h.1, h.2.1, h.2.2⟩

end ArxivDB

example :
    ArxivDB.extract_keywords_with ["the", "a", "for", "uses"]
      "the model uses a model for models" 2 = ["model", "models"] := by decide

example :
    ArxivDB.extract_keywords "the model uses a model for models" 2 =
      ["model", "uses"] := by decide
